import Mathlib

set_option maxRecDepth 100000

/-!
Verification of the report renderer in src/comment.ts of the reg-actions
repository.  The module builds markdown comments summarizing a visual
regression comparison.  Every definition below is a shallow embedding of
the corresponding TypeScript declaration; string templates are transcribed
byte for byte, including trailing whitespace of the template literals.
-/

namespace RegActions

/-! ### JavaScript string primitives used by the source -/

/-- Splits a character list at every occurrence of the separator, keeping
empty segments, exactly as the JS expression s.split(sep) does for a
single-character separator.  An empty input yields one empty segment. -/
def splitChar (sep : Char) : List Char → List (List Char)
  | [] => [[]]
  | c :: t =>
    let r := splitChar sep t
    if c == sep then [] :: r
    else
      match r with
      | [] => [[c]]
      | x :: xs => (c :: x) :: xs

/-- Models the JS call s.split(sep) for a single-character separator. -/
def jsSplit (s : String) (sep : Char) : List String :=
  (splitChar sep s.data).map (fun l => ⟨l⟩)

/-- Modelled from the spec: the Node path.basename helper imported by the
source is not part of this repository; the spec describes it as taking
the last path segment of each item identifier, directory-stripped.
Trailing separators are ignored, as Node does. -/
def basename (p : String) : String :=
  ⟨((splitChar ('/') p.data).filter (fun l => !l.isEmpty)).getLastD []⟩

/-- Upper-case hexadecimal digit for a value below 16. -/
def hexDigit (n : Nat) : Char :=
  if n < 10 then Char.ofNat (48 + n) else Char.ofNat (55 + n)

/-- Percent-encoding of one byte, as three characters. -/
def percentByte (b : Nat) : List Char :=
  ['%', hexDigit (b / 16), hexDigit (b % 16)]

/-- UTF-8 byte sequence of one character. -/
def utf8Bytes (c : Char) : List Nat :=
  let n := c.toNat
  if n < 128 then [n]
  else if n < 2048 then [192 + n / 64, 128 + n % 64]
  else if n < 65536 then [224 + n / 4096, 128 + (n / 64) % 64, 128 + n % 64]
  else [240 + n / 262144, 128 + (n / 4096) % 64, 128 + (n / 64) % 64, 128 + n % 64]

/-- Characters the JS encodeURIComponent function leaves unescaped:
letters, digits, and - _ . ! ~ * ( ) together with the apostrophe
(code 39). -/
def isUnreservedInURIComponent (c : Char) : Bool :=
  (65 ≤ c.toNat && c.toNat ≤ 90) || (97 ≤ c.toNat && c.toNat ≤ 122) ||
  (48 ≤ c.toNat && c.toNat ≤ 57) ||
  c == '-' || c == '_' || c == '.' || c == '!' || c == '~' || c == '*' ||
  c.toNat == 39 || c == '(' || c == ')'

/-- Models the JS call encodeURIComponent(s): unreserved characters are
kept, every other character is replaced by the percent-encoding of its
UTF-8 bytes. -/
def encodeURIComponent (s : String) : String :=
  ⟨(s.data.map (fun c =>
      if isUnreservedInURIComponent c then [c]
      else ((utf8Bytes c).map percentByte).flatten)).flatten⟩

/-- Models the JS call sha.slice(0, 7): the first seven characters, or the
whole string when it is shorter. -/
def sliceSeven (s : String) : String := ⟨s.data.take 7⟩

/-- Models the JS call list.join(sep) on an array of strings. -/
def joinWith (sep : String) : List String → String
  | [] => ""
  | [s] => s
  | s :: rest => s ++ sep ++ joinWith sep rest

/-! ### Substring search, used to state the containment properties -/

/-- Boolean test that pat occurs at the head of s. -/
def leadsList : List Char → List Char → Bool
  | [], _ => true
  | _ :: _, [] => false
  | a :: ps, b :: ss => a == b && leadsList ps ss

/-- Boolean test that pat occurs somewhere inside s. -/
def hasSub : List Char → List Char → Bool
  | [], pat => leadsList pat []
  | b :: t, pat => leadsList pat (b :: t) || hasSub t pat

/-- Boolean test that the string pat occurs as a contiguous substring of
the string s. -/
def strContains (s pat : String) : Bool := hasSub s.data pat.data

/-! ### Data model of the source (comment.ts together with the record
shapes it consumes from event.ts, run.ts and compare.ts; only the fields
comment.ts reads are modelled, following section 3 of the spec) -/

/-- Repository record of the webhook payload; comment.ts reads only the
full name, an owner/repoName pair separated by a slash. -/
structure Repository where
  full_name : String

/-- Event record; comment.ts reads only event.repository.full_name. -/
structure Event where
  repository : Repository

/-- Workflow run record; comment.ts reads only the head commit sha. -/
structure Run where
  head_sha : String

/-- CompareOutput: the comparison result with its four item lists. -/
structure CompareOutput where
  passedItems : List String
  failedItems : List String
  newItems : List String
  deletedItems : List String

/-- Input record of createCommentWithTarget. -/
structure CreateCommentWithTargetInput where
  event : Event
  runId : Nat
  sha : String
  regBranch : String
  artifactName : String
  targetRun : Run
  result : CompareOutput
  date : String
  customReportPage : Option String

/-- Input record of createCommentWithoutTarget. -/
structure CreateCommentWithoutTargetInput where
  event : Event
  runId : Nat
  result : CompareOutput
  artifactName : String
  customReportPage : Option String

/-! ### The functions of comment.ts -/

/-- isSuccess, lines 27 to 29: all of failedItems, newItems and
deletedItems are empty. -/
def isSuccess (result : CompareOutput) : Bool :=
  result.failedItems.length == 0 && result.newItems.length == 0 &&
  result.deletedItems.length == 0

/-- badge, lines 31 to 39: failed items give the orange change-detected
badge, otherwise new items give the green new-items badge, otherwise the
green passed badge.  The JS conditions test truthiness of the lengths. -/
def badge (result : CompareOutput) : String :=
  if result.failedItems.length ≠ 0 then
    "![change detected](https://img.shields.io/badge/%E2%9C%94%20reg-change%20detected-orange)"
  else if result.newItems.length ≠ 0 then
    "![new items](https://img.shields.io/badge/%E2%9C%94%20reg-new%20items-green)"
  else
    "![success](https://img.shields.io/badge/%E2%9C%94%20reg-passed-green)"

/-- Argument record of createBaseUrl, lines 41 to 55. -/
structure CreateBaseUrlInput where
  owner : String
  repoName : String
  branch : String
  runId : Nat
  artifactName : String
  date : String

/-- createBaseUrl, lines 41 to 57. -/
def createBaseUrl (i : CreateBaseUrlInput) : String :=
  "https://github.com/" ++ i.owner ++ "/" ++ i.repoName ++ "/blob/" ++
  i.branch ++ "/" ++ i.date ++ "_" ++ toString i.runId ++ "_" ++
  i.artifactName ++ "/"

/-- Per-item block of the differences section, the arrow function mapped
over failedItems in lines 66 to 79. -/
def diffBlock (baseUrl item : String) : String :=
  let base := basename item
  let filename := encodeURIComponent base
  let actual := baseUrl ++ ("actual/" ++ (filename ++ "?raw=true"))
  let expected := baseUrl ++ ("expected/" ++ (filename ++ "?raw=true"))
  let diff := baseUrl ++ ("diff/" ++ (filename ++ "?raw=true"))
  "### `" ++ base ++ "`" ++ "\n   \n| actual|![Actual](" ++ actual ++
  ") |\n|--|--|\n|expected|![Expected](" ++ expected ++
  ")|\n|difference|![Difference](" ++ diff ++ ")|"

/-- differences, lines 59 to 84: empty when there are no failed items,
otherwise a header, the per-item blocks joined by newlines, and the
trailing whitespace of the template literal. -/
def differences (result : CompareOutput) (baseUrl : String) : String :=
  if result.failedItems.length = 0 then ""
  else
    "   \n     \n### Differences\n  \n" ++
    joinWith ("\n") (result.failedItems.map (fun item => diffBlock baseUrl item)) ++
    "\n  "

/-- Per-item block of the new-items section, lines 93 to 103. -/
def newBlock (baseUrl item : String) : String :=
  let base := basename item
  let filename := encodeURIComponent base
  let img := baseUrl ++ ("actual/" ++ (filename ++ "?raw=true"))
  "### `" ++ base ++ "`" ++ "\n       \n|  |\n|--|\n|![NewItem](" ++ img ++
  ")|" ++ "\n       "

/-- newItems, lines 86 to 108. -/
def newItems (result : CompareOutput) (baseUrl : String) : String :=
  if result.newItems.length = 0 then ""
  else
    "   \n     \n### New Items\n  \n" ++
    joinWith ("\n") (result.newItems.map (fun item => newBlock baseUrl item)) ++
    "\n  "

/-- Per-item block of the deleted-items section, lines 117 to 127. -/
def deletedBlock (baseUrl item : String) : String :=
  let base := basename item
  let filename := encodeURIComponent base
  let img := baseUrl ++ ("expected/" ++ (filename ++ "?raw=true"))
  "### `" ++ base ++ "`" ++ "\n       \n|  |\n|--|\n|![DeleteItem](" ++ img ++
  ")|" ++ "\n       "

/-- deletedItems, lines 110 to 132. -/
def deletedItems (result : CompareOutput) (baseUrl : String) : String :=
  if result.deletedItems.length = 0 then ""
  else
    "   \n   \n### Deleted Items\n  \n" ++
    joinWith ("\n") (result.deletedItems.map (fun item => deletedBlock baseUrl item)) ++
    "\n  "

/-- Owner component of the repository full name: the first element of the
JS destructuring of full_name.split on the slash.  A missing element of a
JS destructuring is undefined and renders as the text undefined inside a
template literal; split never returns an empty array, so the default is
unreachable here. -/
def repoOwner (input : CreateCommentWithTargetInput) : String :=
  (jsSplit input.event.repository.full_name ('/')).getD 0 ("undefined")

/-- Repo-name component of the repository full name: the second element of
the JS destructuring of full_name.split on the slash, or the text
undefined when the full name has no slash. -/
def repoNameOf (input : CreateCommentWithTargetInput) : String :=
  (jsSplit input.event.repository.full_name ('/')).getD 1 ("undefined")

/-- Celebratory message of the success branch, line 159. -/
def perfectMessage : String :=
  "✨✨ That" ++ String.singleton (Char.ofNat 39) ++
  "s perfect, there is no visual difference! ✨✨"

/-- Local report of createCommentWithTarget, lines 150 to 153: the
conditional is JS truthiness, so both null and the empty string give the
empty result. -/
def reportLinkWithTarget : Option String → String
  | none => ""
  | some page =>
    if page = "" then ""
    else "   \n" ++ "Check out the report [here](" ++ page ++ ")."

/-- Local successOrFailMessage of createCommentWithTarget, lines 154 to
167. -/
def successOrFailMessage (result : CompareOutput) (artifactName report : String) : String :=
  if isSuccess result = true then
    badge result ++ "\n\n## ArtifactName: `" ++ artifactName ++ "`\n  \n" ++
    perfectMessage ++ "\n" ++ "Check out the report [here](" ++ report ++
    ")." ++ "\n    "
  else
    badge result ++ "\n\n## ArtifactName: `" ++ artifactName ++ "`\n\n" ++
    "Check out the report [here](" ++ report ++ ")." ++ "\n    "

/-- Summary table of the body template, lines 174 to 179, with the four
counts in the fixed order pass, change, new, delete. -/
def summaryTable (p f n d : Nat) : String :=
  "| item    | count                         |\n|:--------|:-----------------------------:|\n| pass    | " ++
  toString p ++ "  |\n| change  | " ++ toString f ++ "  |\n| new     | " ++
  toString n ++ "     |\n| delete  | " ++ toString d ++ " |\n"

/-- createCommentWithTarget, lines 134 to 190. -/
def createCommentWithTarget (input : CreateCommentWithTargetInput) : String :=
  let owner := repoOwner input
  let repoName := repoNameOf input
  let currentHash := input.sha
  let targetHash := input.targetRun.head_sha
  let currentHashShort := sliceSeven currentHash
  let targetHashShort := sliceSeven targetHash
  let baseUrl := createBaseUrl
    ⟨owner, repoName, input.regBranch, input.runId, input.artifactName, input.date⟩
  let report := reportLinkWithTarget input.customReportPage
  let msg := successOrFailMessage input.result input.artifactName report
  "This report was generated by comparing [" ++ currentHashShort ++
  "](https://github.com/" ++ owner ++ "/" ++ repoName ++ "/commit/" ++
  currentHash ++ ") with [" ++ targetHashShort ++ "](https://github.com/" ++
  owner ++ "/" ++ repoName ++ "/commit/" ++ targetHash ++
  ").\nIf you would like to check difference, please check [here](https://github.com/" ++
  owner ++ "/" ++ repoName ++ "/compare/" ++ targetHashShort ++ ".." ++
  currentHashShort ++ ")." ++ "\n  \n" ++ msg ++ "\n  \n" ++
  summaryTable input.result.passedItems.length input.result.failedItems.length
    input.result.newItems.length input.result.deletedItems.length ++
  "\n<details>\n<summary>📝 Report</summary>\n" ++
  differences input.result baseUrl ++ "\n" ++
  newItems input.result baseUrl ++ "\n" ++
  deletedItems input.result baseUrl ++ "\n</details>\n"

/-- Local report of createCommentWithoutTarget, lines 197 to 200; note the
two leading spaces of the second template line, and the JS truthiness of
the condition. -/
def reportLinkWithoutTarget : Option String → String
  | none => ""
  | some page =>
    if page = "" then ""
    else "   \n  " ++ "Check out the report [here](" ++ page ++ ")."

/-- createCommentWithoutTarget, lines 192 to 215.  Only result,
artifactName and customReportPage are destructured from the input. -/
def createCommentWithoutTarget (input : CreateCommentWithoutTargetInput) : String :=
  let report := reportLinkWithoutTarget input.customReportPage
  "## ArtifactName: `" ++ input.artifactName ++ "`" ++
  "\n  \nFailed to find a target artifact.\nAll items will be treated as new items and will be used as expected data for the next time.\n\n![target not found](https://img.shields.io/badge/%E2%9C%94%20reg-new%20items-blue)\n" ++
  report ++
  "\n\n| item    | count                         |\n|:--------|:-----------------------------:|\n| new     | " ++
  toString input.result.newItems.length ++ "     |\n  "

/-! ### Concrete sample inputs used to instantiate the theorems -/

/-- Sample input of the end-to-end success example: one passed item and
nothing else, artifact name home. -/
def c6Input : CreateCommentWithTargetInput :=
  { event := ⟨⟨"o/r"⟩⟩
    runId := 42
    sha := "0123456789abcdef0123456789abcdef01234567"
    regBranch := "reg"
    artifactName := "home"
    targetRun := ⟨"fedcba9876543210fedcba9876543210fedcba98"⟩
    result := ⟨["a.png"], [], [], []⟩
    date := "2024-01-01"
    customReportPage := none }

/-- Sample input with one item in each of the four lists and a custom
report page. -/
def cItemsInput : CreateCommentWithTargetInput :=
  { event := ⟨⟨"o/r"⟩⟩
    runId := 42
    sha := "0123456789abcdef0123456789abcdef01234567"
    regBranch := "reg"
    artifactName := "home"
    targetRun := ⟨"fedcba9876543210fedcba9876543210fedcba98"⟩
    result := ⟨["p.png"], ["dir/sub/My File.png"], ["n.png"], ["old.png"]⟩
    date := "2024-01-01"
    customReportPage := some ("https://example.com/report") }

/-- Sample input whose customReportPage is the empty string, a non-null
value that is falsy in JS. -/
def cEmptyPageInput : CreateCommentWithTargetInput :=
  { event := ⟨⟨"o/r"⟩⟩
    runId := 42
    sha := "0123456789abcdef0123456789abcdef01234567"
    regBranch := "reg"
    artifactName := "home"
    targetRun := ⟨"fedcba9876543210fedcba9876543210fedcba98"⟩
    result := ⟨["p.png"], ["dir/sub/My File.png"], ["n.png"], ["old.png"]⟩
    date := "2024-01-01"
    customReportPage := some ("") }

/-- Sample no-target input with non-empty failed, deleted and passed
lists. -/
def cNoTargetA : CreateCommentWithoutTargetInput :=
  { event := ⟨⟨"o/r"⟩⟩
    runId := 1
    result := ⟨["pp.png"], ["ff.png"], ["n1.png"], ["dd.png"]⟩
    artifactName := "home"
    customReportPage := none }

/-- Sample no-target input agreeing with cNoTargetA on artifact name,
custom report page and new-item count only. -/
def cNoTargetB : CreateCommentWithoutTargetInput :=
  { event := ⟨⟨"x/y"⟩⟩
    runId := 9
    result := ⟨[], [], ["other.png"], []⟩
    artifactName := "home"
    customReportPage := none }

/-- Sample no-target input sharing result, artifact name and custom report
page with cNoTargetA but run under a different event and run id. -/
def cNoTargetC : CreateCommentWithoutTargetInput :=
  { event := ⟨⟨"someone/else"⟩⟩
    runId := 777
    result := ⟨["pp.png"], ["ff.png"], ["n1.png"], ["dd.png"]⟩
    artifactName := "home"
    customReportPage := none }

/-! ### Helper lemmas about string append and substring search -/

/-- String append acts as list append on the character data. -/
theorem strData_append (s t : String) : (s ++ t).data = s.data ++ t.data := rfl

/-- String append is associative. -/
theorem strAppend_assoc (a b c : String) : (a ++ b) ++ c = a ++ (b ++ c) := by
  cases a with
  | mk la =>
    cases b with
    | mk lb =>
      cases c with
      | mk lc =>
        show String.mk ((la ++ lb) ++ lc) = String.mk (la ++ (lb ++ lc))
        rw [List.append_assoc]

/-- A pattern leads any extension of itself. -/
theorem leadsList_append_right (p r : List Char) : leadsList p (p ++ r) = true := by
  induction p with
  | nil => rfl
  | cons a ps ih => simp [leadsList, ih]

/-- Leading is preserved by extending the searched list on the right. -/
theorem leadsList_extend (p s r : List Char) (h : leadsList p s = true) :
    leadsList p (s ++ r) = true := by
  induction p generalizing s with
  | nil => rfl
  | cons a ps ih =>
    cases s with
    | nil => simp [leadsList] at h
    | cons b ss =>
      simp only [leadsList, Bool.and_eq_true] at h
      simp only [List.cons_append, leadsList, Bool.and_eq_true]
      exact ⟨h.1, ih ss h.2⟩

/-- The empty pattern occurs in every list. -/
theorem hasSub_nil (s : List Char) : hasSub s [] = true := by
  cases s <;> simp [hasSub, leadsList]

/-- A pattern occurs in any list that starts with it. -/
theorem hasSub_here (p r : List Char) : hasSub (p ++ r) p = true := by
  cases p with
  | nil => simpa using hasSub_nil r
  | cons a ps =>
    simp only [List.cons_append, hasSub, Bool.or_eq_true]
    exact Or.inl (by simpa using leadsList_append_right (a :: ps) r)

/-- Occurrence is preserved by extending the searched list on the right. -/
theorem hasSub_extend (s r p : List Char) (h : hasSub s p = true) :
    hasSub (s ++ r) p = true := by
  induction s with
  | nil =>
    cases p with
    | nil => simpa using hasSub_nil r
    | cons a ps => simp [hasSub, leadsList] at h
  | cons b t ih =>
    simp only [hasSub, Bool.or_eq_true] at h
    simp only [List.cons_append, hasSub, Bool.or_eq_true]
    rcases h with h1 | h2
    · exact Or.inl (by simpa using leadsList_extend _ _ r h1)
    · exact Or.inr (ih h2)

/-- Occurrence is preserved by extending the searched list on the left. -/
theorem hasSub_skip (l s p : List Char) (h : hasSub s p = true) :
    hasSub (l ++ s) p = true := by
  induction l with
  | nil => simpa using h
  | cons c t ih =>
    simp only [List.cons_append, hasSub, Bool.or_eq_true]
    exact Or.inr ih

/-- Containment is preserved by appending on the right. -/
theorem strContains_lift (a b pat : String) (h : strContains a pat = true) :
    strContains (a ++ b) pat = true := by
  simp only [strContains, strData_append]
  exact hasSub_extend _ _ _ h

/-- Containment is preserved by appending on the left. -/
theorem strContains_skip (a b pat : String) (h : strContains b pat = true) :
    strContains (a ++ b) pat = true := by
  simp only [strContains, strData_append]
  exact hasSub_skip _ _ _ h

/-- Every string contains itself. -/
theorem strContains_self (p : String) : strContains p p = true := by
  have h := hasSub_here p.data []
  simpa [strContains] using h

/-- A string contains each of its prefixes. -/
theorem strContains_take (p r : String) : strContains (p ++ r) p = true :=
  strContains_lift _ _ _ (strContains_self p)

/-- Prefix containment for a pattern written as two segments. -/
theorem strContains_take2 (p q r : String) :
    strContains (p ++ (q ++ r)) (p ++ q) = true := by
  rw [show p ++ (q ++ r) = (p ++ q) ++ r from by simp [strAppend_assoc]]
  exact strContains_take _ _

/-- Prefix containment for a pattern written as three segments. -/
theorem strContains_take3 (p q u r : String) :
    strContains (p ++ (q ++ (u ++ r))) (p ++ (q ++ u)) = true := by
  rw [show p ++ (q ++ (u ++ r)) = (p ++ (q ++ u)) ++ r from by simp [strAppend_assoc]]
  exact strContains_take _ _

/-- Prefix containment for a pattern written as four segments. -/
theorem strContains_take4 (p q u v r : String) :
    strContains (p ++ (q ++ (u ++ (v ++ r)))) (p ++ (q ++ (u ++ v))) = true := by
  rw [show p ++ (q ++ (u ++ (v ++ r))) = (p ++ (q ++ (u ++ v))) ++ r from by
    simp [strAppend_assoc]]
  exact strContains_take _ _

/-- Prefix containment for a pattern written as five segments. -/
theorem strContains_take5 (p q u v w r : String) :
    strContains (p ++ (q ++ (u ++ (v ++ (w ++ r))))) (p ++ (q ++ (u ++ (v ++ w)))) = true := by
  rw [show p ++ (q ++ (u ++ (v ++ (w ++ r)))) = (p ++ (q ++ (u ++ (v ++ w)))) ++ r from by
    simp [strAppend_assoc]]
  exact strContains_take _ _

/-- A joined list contains every pattern contained in one of its
members. -/
theorem strContains_joinWith_of_mem (sep pat x : String) (l : List String)
    (hx : x ∈ l) (h : strContains x pat = true) :
    strContains (joinWith sep l) pat = true := by
  induction hx with
  | head rest =>
    cases rest with
    | nil => simpa [joinWith] using h
    | cons b rs =>
      simp only [joinWith, strAppend_assoc]
      exact strContains_lift _ _ _ h
  | tail b hmem ih =>
    rename_i l'
    cases l' with
    | nil => cases hmem
    | cons c rs =>
      simp only [joinWith, strAppend_assoc]
      exact strContains_skip _ _ _ (strContains_skip _ _ _ ih)

/-- Prefix containment for a pattern written as six segments. -/
theorem strContains_take6 (p q u v w y r : String) :
    strContains (p ++ (q ++ (u ++ (v ++ (w ++ (y ++ r))))))
      (p ++ (q ++ (u ++ (v ++ (w ++ y))))) = true := by
  rw [show p ++ (q ++ (u ++ (v ++ (w ++ (y ++ r))))) =
      (p ++ (q ++ (u ++ (v ++ (w ++ y))))) ++ r from by simp [strAppend_assoc]]
  exact strContains_take _ _

/-- The empty string is a left identity of append. -/
theorem strAppend_empty_left (s : String) : "" ++ s = s := by
  cases s with
  | mk l =>
    show String.mk ([] ++ l) = String.mk l
    rw [List.nil_append]

/-! ### Structural containment helpers for the renderers -/

/-- Whatever the differences section contains, the whole comment of
createCommentWithTarget contains as well. -/
theorem out_contains_diffSection (input : CreateCommentWithTargetInput) (pat : String)
    (h : strContains (differences input.result (createBaseUrl
      ⟨repoOwner input, repoNameOf input, input.regBranch, input.runId,
       input.artifactName, input.date⟩)) pat = true) :
    strContains (createCommentWithTarget input) pat = true := by
  simp only [createCommentWithTarget, strAppend_assoc]
  repeat (first | exact strContains_lift _ _ _ h | apply strContains_skip)

/-- Whatever the new-items section contains, the whole comment of
createCommentWithTarget contains as well. -/
theorem out_contains_newSection (input : CreateCommentWithTargetInput) (pat : String)
    (h : strContains (newItems input.result (createBaseUrl
      ⟨repoOwner input, repoNameOf input, input.regBranch, input.runId,
       input.artifactName, input.date⟩)) pat = true) :
    strContains (createCommentWithTarget input) pat = true := by
  simp only [createCommentWithTarget, strAppend_assoc]
  repeat (first | exact strContains_lift _ _ _ h | apply strContains_skip)

/-- Whatever the deleted-items section contains, the whole comment of
createCommentWithTarget contains as well. -/
theorem out_contains_deletedSection (input : CreateCommentWithTargetInput) (pat : String)
    (h : strContains (deletedItems input.result (createBaseUrl
      ⟨repoOwner input, repoNameOf input, input.regBranch, input.runId,
       input.artifactName, input.date⟩)) pat = true) :
    strContains (createCommentWithTarget input) pat = true := by
  simp only [createCommentWithTarget, strAppend_assoc]
  repeat (first | exact strContains_lift _ _ _ h | apply strContains_skip)

/-- The differences section contains whatever the block of one of the
failed items contains. -/
theorem differences_contains_of_mem (result : CompareOutput) (baseUrl item pat : String)
    (hmem : item ∈ result.failedItems)
    (h : strContains (diffBlock baseUrl item) pat = true) :
    strContains (differences result baseUrl) pat = true := by
  have hne : result.failedItems.length ≠ 0 := by
    simpa [List.length_eq_zero] using List.ne_nil_of_mem hmem
  simp only [differences]
  rw [if_neg hne]
  simp only [strAppend_assoc]
  apply strContains_skip
  apply strContains_lift
  exact strContains_joinWith_of_mem _ _ _ _ (List.mem_map_of_mem _ hmem) h

/-- The new-items section contains whatever the block of one of the new
items contains. -/
theorem newItems_contains_of_mem (result : CompareOutput) (baseUrl item pat : String)
    (hmem : item ∈ result.newItems)
    (h : strContains (newBlock baseUrl item) pat = true) :
    strContains (newItems result baseUrl) pat = true := by
  have hne : result.newItems.length ≠ 0 := by
    simpa [List.length_eq_zero] using List.ne_nil_of_mem hmem
  simp only [newItems]
  rw [if_neg hne]
  simp only [strAppend_assoc]
  apply strContains_skip
  apply strContains_lift
  exact strContains_joinWith_of_mem _ _ _ _ (List.mem_map_of_mem _ hmem) h

/-- The deleted-items section contains whatever the block of one of the
deleted items contains. -/
theorem deletedItems_contains_of_mem (result : CompareOutput) (baseUrl item pat : String)
    (hmem : item ∈ result.deletedItems)
    (h : strContains (deletedBlock baseUrl item) pat = true) :
    strContains (deletedItems result baseUrl) pat = true := by
  have hne : result.deletedItems.length ≠ 0 := by
    simpa [List.length_eq_zero] using List.ne_nil_of_mem hmem
  simp only [deletedItems]
  rw [if_neg hne]
  simp only [strAppend_assoc]
  apply strContains_skip
  apply strContains_lift
  exact strContains_joinWith_of_mem _ _ _ _ (List.mem_map_of_mem _ hmem) h

/-- A differences block contains its title, the base filename between
backticks. -/
theorem diffBlock_contains_title (baseUrl item : String) :
    strContains (diffBlock baseUrl item) ("### `" ++ (basename item ++ "`")) = true := by
  simp only [diffBlock, strAppend_assoc]
  repeat (first | exact strContains_take3 _ _ _ _ | apply strContains_skip)

/-- A differences block contains the actual-image URL. -/
theorem diffBlock_contains_actual (baseUrl item : String) :
    strContains (diffBlock baseUrl item)
      (baseUrl ++ ("actual/" ++ (encodeURIComponent (basename item) ++ "?raw=true"))) = true := by
  simp only [diffBlock, strAppend_assoc]
  repeat (first | exact strContains_take4 _ _ _ _ _ | apply strContains_skip)

/-- A differences block contains the expected-image URL. -/
theorem diffBlock_contains_expected (baseUrl item : String) :
    strContains (diffBlock baseUrl item)
      (baseUrl ++ ("expected/" ++ (encodeURIComponent (basename item) ++ "?raw=true"))) = true := by
  simp only [diffBlock, strAppend_assoc]
  repeat (first | exact strContains_take4 _ _ _ _ _ | apply strContains_skip)

/-- A differences block contains the diff-image URL. -/
theorem diffBlock_contains_diff (baseUrl item : String) :
    strContains (diffBlock baseUrl item)
      (baseUrl ++ ("diff/" ++ (encodeURIComponent (basename item) ++ "?raw=true"))) = true := by
  simp only [diffBlock, strAppend_assoc]
  repeat (first | exact strContains_take4 _ _ _ _ _ | apply strContains_skip)

/-- A new-items block contains the actual-image URL. -/
theorem newBlock_contains_actual (baseUrl item : String) :
    strContains (newBlock baseUrl item)
      (baseUrl ++ ("actual/" ++ (encodeURIComponent (basename item) ++ "?raw=true"))) = true := by
  simp only [newBlock, strAppend_assoc]
  repeat (first | exact strContains_take4 _ _ _ _ _ | apply strContains_skip)

/-- A deleted-items block contains the expected-image URL. -/
theorem deletedBlock_contains_expected (baseUrl item : String) :
    strContains (deletedBlock baseUrl item)
      (baseUrl ++ ("expected/" ++ (encodeURIComponent (basename item) ++ "?raw=true"))) = true := by
  simp only [deletedBlock, strAppend_assoc]
  repeat (first | exact strContains_take4 _ _ _ _ _ | apply strContains_skip)

/-! ### The claims -/

/-- C1: createCommentWithTarget classifies a result as success exactly
when failedItems, newItems and deletedItems are all empty; the passed
items do not affect the classification; and in the success case the
produced comment contains the celebratory message. -/
theorem claim1_success_classification (input : CreateCommentWithTargetInput) :
    (isSuccess input.result = true ↔
      (input.result.failedItems = [] ∧ input.result.newItems = [] ∧
       input.result.deletedItems = [])) ∧
    (∀ p : List String,
      isSuccess { input.result with passedItems := p } = isSuccess input.result) ∧
    (isSuccess input.result = true →
      strContains (createCommentWithTarget input) perfectMessage = true) := by
  refine ⟨?_, ?_, ?_⟩
  · simp [isSuccess, List.length_eq_zero, and_assoc]
  · intro p
    simp [isSuccess]
  · intro h
    simp only [createCommentWithTarget, successOrFailMessage]
    rw [if_pos h]
    simp only [strAppend_assoc]
    repeat (first | exact strContains_take _ _ | apply strContains_skip)

/-- Witness for C1 at a concrete successful input. -/
theorem claim1_witness :
    isSuccess c6Input.result = true ∧
    strContains (createCommentWithTarget c6Input) perfectMessage = true :=
  ⟨by decide, (claim1_success_classification c6Input).2.2 (by decide)⟩

/-- C2: the badge follows the fixed precedence failed over new over
passed, independently of the counts: any failed item gives the orange
change-detected badge, otherwise any new item gives the green new-items
badge, otherwise the green passed badge. -/
theorem claim2_badge_precedence (result : CompareOutput) :
    (result.failedItems ≠ [] →
      badge result =
        "![change detected](https://img.shields.io/badge/%E2%9C%94%20reg-change%20detected-orange)") ∧
    (result.failedItems = [] → result.newItems ≠ [] →
      badge result =
        "![new items](https://img.shields.io/badge/%E2%9C%94%20reg-new%20items-green)") ∧
    (result.failedItems = [] → result.newItems = [] →
      badge result =
        "![success](https://img.shields.io/badge/%E2%9C%94%20reg-passed-green)") := by
  refine ⟨?_, ?_, ?_⟩
  · intro h
    have hlen : result.failedItems.length ≠ 0 := by
      simpa [List.length_eq_zero] using h
    simp [badge, hlen]
  · intro h1 h2
    have hlen2 : result.newItems.length ≠ 0 := by
      simpa [List.length_eq_zero] using h2
    simp [badge, h1, hlen2]
  · intro h1 h2
    simp [badge, h1, h2]

/-- Witness for C2 covering the three branches at concrete results. -/
theorem claim2_witness :
    badge ⟨["p.png"], ["f.png"], ["n.png"], ["d.png"]⟩ =
      "![change detected](https://img.shields.io/badge/%E2%9C%94%20reg-change%20detected-orange)" ∧
    badge ⟨["p.png"], [], ["n.png"], ["d.png"]⟩ =
      "![new items](https://img.shields.io/badge/%E2%9C%94%20reg-new%20items-green)" ∧
    badge ⟨["p.png"], [], [], ["d.png"]⟩ =
      "![success](https://img.shields.io/badge/%E2%9C%94%20reg-passed-green)" :=
  ⟨(claim2_badge_precedence _).1 (by decide),
   (claim2_badge_precedence _).2.1 rfl (by decide),
   (claim2_badge_precedence _).2.2 rfl rfl⟩

/-- C3: every comment of createCommentWithTarget contains the summary
table, whose four count rows appear in the fixed order pass, change, new,
delete and carry exactly the lengths of the four item lists; the second
conjunct spells out the table text, one row per count, each count printed
as a plain decimal integer. -/
theorem claim3_summary_table (input : CreateCommentWithTargetInput) :
    strContains (createCommentWithTarget input)
      (summaryTable input.result.passedItems.length input.result.failedItems.length
        input.result.newItems.length input.result.deletedItems.length) = true ∧
    (∀ p f n d : Nat, summaryTable p f n d =
      "| item    | count                         |\n|:--------|:-----------------------------:|\n| pass    | " ++
      toString p ++ "  |\n| change  | " ++ toString f ++ "  |\n| new     | " ++
      toString n ++ "     |\n| delete  | " ++ toString d ++ " |\n") := by
  refine ⟨?_, fun p f n d => rfl⟩
  simp only [createCommentWithTarget, strAppend_assoc]
  iterate 28 apply strContains_skip
  exact strContains_take _ _

/-- C5: the output of createCommentWithoutTarget depends only on the
artifact name, the custom report page and the number of new items; and at
a concrete input with non-empty failed, deleted and passed lists the
output still shows no differences or deleted-items section. -/
theorem claim5_without_target_invariance (i1 i2 : CreateCommentWithoutTargetInput)
    (hart : i1.artifactName = i2.artifactName)
    (hpage : i1.customReportPage = i2.customReportPage)
    (hnew : i1.result.newItems.length = i2.result.newItems.length) :
    createCommentWithoutTarget i1 = createCommentWithoutTarget i2 ∧
    strContains (createCommentWithoutTarget cNoTargetA) ("Differences") = false ∧
    strContains (createCommentWithoutTarget cNoTargetA) ("Deleted Items") = false := by
  refine ⟨?_, by decide, by decide⟩
  simp only [createCommentWithoutTarget, hart, hpage, hnew]

/-- Witness for C5: two concrete inputs agreeing only on artifact name,
report page and new-item count produce identical comments. -/
theorem claim5_witness :
    createCommentWithoutTarget cNoTargetA = createCommentWithoutTarget cNoTargetB ∧
    strContains (createCommentWithoutTarget cNoTargetA) ("Differences") = false ∧
    strContains (createCommentWithoutTarget cNoTargetA) ("Deleted Items") = false :=
  claim5_without_target_invariance cNoTargetA cNoTargetB rfl rfl rfl

/-- C6 counterexample: at the concrete success input of the claim the
output does not contain the literal row written in the claim, because the
cells of the rendered table are padded with extra spaces. -/
theorem claim6_counterexample :
    strContains (createCommentWithTarget c6Input) ("| pass | 1 |") = false := by
  decide

/-- C6 amended: at the concrete input with one passed item and artifact
name home, the output contains the passed badge and the pass row with
count 1 in its actual padding, | pass followed by four spaces, a pipe,
one space, the count, two spaces and a pipe, and contains none of the
headers Differences, New Items or Deleted Items. -/
theorem claim6_amended :
    strContains (createCommentWithTarget c6Input)
      ("![success](https://img.shields.io/badge/%E2%9C%94%20reg-passed-green)") = true ∧
    strContains (createCommentWithTarget c6Input) ("| pass    | 1  |") = true ∧
    strContains (createCommentWithTarget c6Input) ("Differences") = false ∧
    strContains (createCommentWithTarget c6Input) ("New Items") = false ∧
    strContains (createCommentWithTarget c6Input) ("Deleted Items") = false := by
  decide

/-- C8: every comment of createCommentWithTarget starts with the
commit-comparison sentences: the link texts are the first seven characters
of the current and target SHAs, the two commit link targets carry the full
SHAs, and the compare link joins the two short SHAs; the final conjunct
evaluates the seven-character truncation on an example. -/
theorem claim8_commit_links (input : CreateCommentWithTargetInput) :
    (∃ rest : String, createCommentWithTarget input =
      "This report was generated by comparing [" ++ sliceSeven input.sha ++
      "](https://github.com/" ++ repoOwner input ++ "/" ++ repoNameOf input ++
      "/commit/" ++ input.sha ++ ") with [" ++ sliceSeven input.targetRun.head_sha ++
      "](https://github.com/" ++ repoOwner input ++ "/" ++ repoNameOf input ++
      "/commit/" ++ input.targetRun.head_sha ++
      ").\nIf you would like to check difference, please check [here](https://github.com/" ++
      repoOwner input ++ "/" ++ repoNameOf input ++ "/compare/" ++
      sliceSeven input.targetRun.head_sha ++ ".." ++ sliceSeven input.sha ++ ")." ++ rest) ∧
    sliceSeven ("0123456789abcdef") = "0123456" := by
  refine ⟨⟨"\n  \n" ++ (successOrFailMessage input.result input.artifactName
      (reportLinkWithTarget input.customReportPage) ++ ("\n  \n" ++
      (summaryTable input.result.passedItems.length input.result.failedItems.length
        input.result.newItems.length input.result.deletedItems.length ++
      ("\n<details>\n<summary>📝 Report</summary>\n" ++
      (differences input.result (createBaseUrl ⟨repoOwner input, repoNameOf input,
        input.regBranch, input.runId, input.artifactName, input.date⟩) ++
      ("\n" ++ (newItems input.result (createBaseUrl ⟨repoOwner input, repoNameOf input,
        input.regBranch, input.runId, input.artifactName, input.date⟩) ++
      ("\n" ++ (deletedItems input.result (createBaseUrl ⟨repoOwner input, repoNameOf input,
        input.regBranch, input.runId, input.artifactName, input.date⟩) ++
      "\n</details>\n"))))))))), ?_⟩, by decide⟩
  simp only [createCommentWithTarget, strAppend_assoc]

/-- C10: createCommentWithoutTarget never reads the event or run id of
its input record: two inputs sharing result, artifact name and custom
report page render identically. -/
theorem claim10_ignores_event_and_runId (i1 i2 : CreateCommentWithoutTargetInput)
    (hres : i1.result = i2.result)
    (hart : i1.artifactName = i2.artifactName)
    (hpage : i1.customReportPage = i2.customReportPage) :
    createCommentWithoutTarget i1 = createCommentWithoutTarget i2 := by
  simp only [createCommentWithoutTarget, hres, hart, hpage]

/-- Witness for C10: two concrete inputs differing in event and run id
only produce identical comments. -/
theorem claim10_witness :
    createCommentWithoutTarget cNoTargetA = createCommentWithoutTarget cNoTargetC :=
  claim10_ignores_event_and_runId cNoTargetA cNoTargetC rfl rfl rfl

/-- C4: every failed item contributes a differences block titled with its
unencoded base filename and carrying the three image URLs built from the
base URL, the section kind and the percent-encoded base filename; the
section is exactly one block per failed item, joined by newlines; and the
example item of the claim has base filename My File.png, encoded as
My%20File.png. -/
theorem claim4_differences_blocks (result : CompareOutput) (baseUrl item : String) :
    (item ∈ result.failedItems →
      strContains (differences result baseUrl)
        ("### `" ++ (basename item ++ "`")) = true ∧
      strContains (differences result baseUrl)
        (baseUrl ++ ("actual/" ++ (encodeURIComponent (basename item) ++ "?raw=true"))) = true ∧
      strContains (differences result baseUrl)
        (baseUrl ++ ("expected/" ++ (encodeURIComponent (basename item) ++ "?raw=true"))) = true ∧
      strContains (differences result baseUrl)
        (baseUrl ++ ("diff/" ++ (encodeURIComponent (basename item) ++ "?raw=true"))) = true) ∧
    (result.failedItems ≠ [] →
      differences result baseUrl =
        "   \n     \n### Differences\n  \n" ++
        joinWith ("\n") (result.failedItems.map (fun it => diffBlock baseUrl it)) ++
        "\n  ") ∧
    basename ("dir/sub/My File.png") = "My File.png" ∧
    encodeURIComponent ("My File.png") = "My%20File.png" := by
  refine ⟨?_, ?_, by decide, by decide⟩
  · intro hmem
    exact ⟨differences_contains_of_mem _ _ _ _ hmem (diffBlock_contains_title _ _),
           differences_contains_of_mem _ _ _ _ hmem (diffBlock_contains_actual _ _),
           differences_contains_of_mem _ _ _ _ hmem (diffBlock_contains_expected _ _),
           differences_contains_of_mem _ _ _ _ hmem (diffBlock_contains_diff _ _)⟩
  · intro h
    have hne : result.failedItems.length ≠ 0 := by
      simpa [List.length_eq_zero] using h
    simp only [differences]
    rw [if_neg hne]

/-- Witness for C4 at a concrete result with one failed item in a nested
directory whose name contains a space. -/
theorem claim4_witness :
    strContains (differences ⟨[], ["dir/sub/My File.png"], [], []⟩
        ("https://github.com/o/r/blob/reg/2024-01-01_42_home/"))
      ("### `" ++ (basename ("dir/sub/My File.png") ++ "`")) = true ∧
    strContains (differences ⟨[], ["dir/sub/My File.png"], [], []⟩
        ("https://github.com/o/r/blob/reg/2024-01-01_42_home/"))
      ("https://github.com/o/r/blob/reg/2024-01-01_42_home/" ++
       ("actual/" ++ (encodeURIComponent (basename ("dir/sub/My File.png")) ++ "?raw=true"))) = true ∧
    strContains (differences ⟨[], ["dir/sub/My File.png"], [], []⟩
        ("https://github.com/o/r/blob/reg/2024-01-01_42_home/"))
      ("https://github.com/o/r/blob/reg/2024-01-01_42_home/" ++
       ("expected/" ++ (encodeURIComponent (basename ("dir/sub/My File.png")) ++ "?raw=true"))) = true ∧
    strContains (differences ⟨[], ["dir/sub/My File.png"], [], []⟩
        ("https://github.com/o/r/blob/reg/2024-01-01_42_home/"))
      ("https://github.com/o/r/blob/reg/2024-01-01_42_home/" ++
       ("diff/" ++ (encodeURIComponent (basename ("dir/sub/My File.png")) ++ "?raw=true"))) = true :=
  (claim4_differences_blocks _ _ _).1 (by decide)

/-- C7: createBaseUrl produces exactly the template
https-github-com, owner, repoName, blob, branch, date underscore runId
underscore artifactName with a trailing slash, where owner and repoName
come from splitting the repository full name on the slash; and every
image embed of createCommentWithTarget, for failed, new and deleted
items alike, starts with that base URL. -/
theorem claim7_base_url (i : CreateBaseUrlInput) (input : CreateCommentWithTargetInput)
    (item : String) :
    (createBaseUrl i =
      "https://github.com/" ++ i.owner ++ "/" ++ i.repoName ++ "/blob/" ++
      i.branch ++ "/" ++ i.date ++ "_" ++ toString i.runId ++ "_" ++
      i.artifactName ++ "/") ∧
    (item ∈ input.result.failedItems →
      strContains (createCommentWithTarget input)
        (createBaseUrl ⟨repoOwner input, repoNameOf input, input.regBranch,
           input.runId, input.artifactName, input.date⟩ ++
         ("actual/" ++ (encodeURIComponent (basename item) ++ "?raw=true"))) = true ∧
      strContains (createCommentWithTarget input)
        (createBaseUrl ⟨repoOwner input, repoNameOf input, input.regBranch,
           input.runId, input.artifactName, input.date⟩ ++
         ("expected/" ++ (encodeURIComponent (basename item) ++ "?raw=true"))) = true ∧
      strContains (createCommentWithTarget input)
        (createBaseUrl ⟨repoOwner input, repoNameOf input, input.regBranch,
           input.runId, input.artifactName, input.date⟩ ++
         ("diff/" ++ (encodeURIComponent (basename item) ++ "?raw=true"))) = true) ∧
    (item ∈ input.result.newItems →
      strContains (createCommentWithTarget input)
        (createBaseUrl ⟨repoOwner input, repoNameOf input, input.regBranch,
           input.runId, input.artifactName, input.date⟩ ++
         ("actual/" ++ (encodeURIComponent (basename item) ++ "?raw=true"))) = true) ∧
    (item ∈ input.result.deletedItems →
      strContains (createCommentWithTarget input)
        (createBaseUrl ⟨repoOwner input, repoNameOf input, input.regBranch,
           input.runId, input.artifactName, input.date⟩ ++
         ("expected/" ++ (encodeURIComponent (basename item) ++ "?raw=true"))) = true) := by
  refine ⟨rfl, ?_, ?_, ?_⟩
  · intro hmem
    exact ⟨out_contains_diffSection _ _
             (differences_contains_of_mem _ _ _ _ hmem (diffBlock_contains_actual _ _)),
           out_contains_diffSection _ _
             (differences_contains_of_mem _ _ _ _ hmem (diffBlock_contains_expected _ _)),
           out_contains_diffSection _ _
             (differences_contains_of_mem _ _ _ _ hmem (diffBlock_contains_diff _ _))⟩
  · intro hmem
    exact out_contains_newSection _ _
      (newItems_contains_of_mem _ _ _ _ hmem (newBlock_contains_actual _ _))
  · intro hmem
    exact out_contains_deletedSection _ _
      (deletedItems_contains_of_mem _ _ _ _ hmem (deletedBlock_contains_expected _ _))

/-- Witness for C7 at a concrete input carrying one failed, one new and
one deleted item. -/
theorem claim7_witness :
    createBaseUrl ⟨"o", "r", "reg", 42, "home", "2024-01-01"⟩ =
      "https://github.com/o/r/blob/reg/2024-01-01_42_home/" ∧
    strContains (createCommentWithTarget cItemsInput)
      (createBaseUrl ⟨repoOwner cItemsInput, repoNameOf cItemsInput, cItemsInput.regBranch,
         cItemsInput.runId, cItemsInput.artifactName, cItemsInput.date⟩ ++
       ("actual/" ++ (encodeURIComponent (basename ("dir/sub/My File.png")) ++ "?raw=true"))) = true ∧
    strContains (createCommentWithTarget cItemsInput)
      (createBaseUrl ⟨repoOwner cItemsInput, repoNameOf cItemsInput, cItemsInput.regBranch,
         cItemsInput.runId, cItemsInput.artifactName, cItemsInput.date⟩ ++
       ("actual/" ++ (encodeURIComponent (basename ("n.png")) ++ "?raw=true"))) = true ∧
    strContains (createCommentWithTarget cItemsInput)
      (createBaseUrl ⟨repoOwner cItemsInput, repoNameOf cItemsInput, cItemsInput.regBranch,
         cItemsInput.runId, cItemsInput.artifactName, cItemsInput.date⟩ ++
       ("expected/" ++ (encodeURIComponent (basename ("old.png")) ++ "?raw=true"))) = true :=
  ⟨by decide,
   ((claim7_base_url ⟨"o", "r", "reg", 42, "home", "2024-01-01"⟩ cItemsInput
      ("dir/sub/My File.png")).2.1 (by decide)).1,
   (claim7_base_url ⟨"o", "r", "reg", 42, "home", "2024-01-01"⟩ cItemsInput
      ("n.png")).2.2.1 (by decide),
   (claim7_base_url ⟨"o", "r", "reg", 42, "home", "2024-01-01"⟩ cItemsInput
      ("old.png")).2.2.2 (by decide)⟩

/-- C9 counterexample: the claim distinguishes only null from non-null,
but the source tests JS truthiness; at the concrete input whose custom
report page is the empty string, a non-null value, the output does not
contain the nested link the claim promises for non-null pages. -/
theorem claim9_counterexample :
    cEmptyPageInput.customReportPage = some ("") ∧
    strContains (createCommentWithTarget cEmptyPageInput)
      ("Check out the report [here](   \nCheck out the report [here]().).") = false :=
  ⟨rfl, by decide⟩

/-- C9 amended: for a non-null and non-empty custom report page the link
target of the header sentence is the whole intermediate report string,
three spaces, a newline and the sentence with the page inside, yielding a
nested markdown link followed by a second closing parenthesis and period;
for a null or empty page the target is empty, yielding the bare link text
followed by an empty target, as the last conjunct spells out. -/
theorem claim9_nested_report_link (input : CreateCommentWithTargetInput) :
    (∀ p : String, input.customReportPage = some p → p ≠ "" →
      strContains (createCommentWithTarget input)
        ("Check out the report [here](" ++ ("   \n" ++ ("Check out the report [here](" ++
          (p ++ (")." ++ ")."))))) = true) ∧
    (input.customReportPage = none ∨ input.customReportPage = some ("") →
      strContains (createCommentWithTarget input)
        ("Check out the report [here](" ++ ").") = true) ∧
    ("Check out the report [here](" ++ ")." = "Check out the report [here]().") := by
  refine ⟨?_, ?_, by decide⟩
  · intro p hp hne
    simp only [createCommentWithTarget, successOrFailMessage, hp, reportLinkWithTarget]
    rw [if_neg hne]
    cases hs : isSuccess input.result with
    | false =>
      rw [if_neg (by simp [hs])]
      simp only [strAppend_assoc]
      iterate 30 apply strContains_skip
      exact strContains_take6 _ _ _ _ _ _ _
    | true =>
      rw [if_pos rfl]
      simp only [strAppend_assoc]
      iterate 32 apply strContains_skip
      exact strContains_take6 _ _ _ _ _ _ _
  · intro hcase
    have hrep : reportLinkWithTarget input.customReportPage = "" := by
      rcases hcase with h | h <;> simp [h, reportLinkWithTarget]
    simp only [createCommentWithTarget, successOrFailMessage, hrep]
    cases hs : isSuccess input.result with
    | false =>
      rw [if_neg (by simp [hs])]
      simp only [strAppend_assoc, strAppend_empty_left]
      iterate 30 apply strContains_skip
      exact strContains_take2 _ _ _
    | true =>
      rw [if_pos rfl]
      simp only [strAppend_assoc, strAppend_empty_left]
      iterate 32 apply strContains_skip
      exact strContains_take2 _ _ _

/-- Witness for C9 at the concrete input with a non-empty custom report
page. -/
theorem claim9_witness :
    cItemsInput.customReportPage = some ("https://example.com/report") ∧
    strContains (createCommentWithTarget cItemsInput)
      ("Check out the report [here](" ++ ("   \n" ++ ("Check out the report [here](" ++
        (("https://example.com/report") ++ (")." ++ ")."))))) = true :=
  ⟨rfl, (claim9_nested_report_link cItemsInput).1 ("https://example.com/report") rfl
    (by decide)⟩

end RegActions
